import Mathlib

set_option maxRecDepth 10000

/-!
Verification development for the pixi-bot repository.

Shallow embedding of the parts of `src/pixi` that the specification's
claims are about:

* `pixi/chatting.py` — `ChatMessage` construction validation, message
  serialization, `PartialFunctionCall` accumulation in
  `AsyncChatClient.stream_request`, the think-tag filter in
  `stream_completion`, `enforce_approximate_context_limit`, and
  `stream_ask`;
* `pixi/commands.py` — `AsyncCommandManager.stream_commands`;
* `pixi/chatbot.py` — `AsyncChatbotInstance` serialization and
  persistence;
* `pixi/client.py` — `PixiClient.pixi_resp_retry`.

Python integers are modelled by `Nat`/`Int`, Python strings by `String`
(or `List Char` where character-level manipulation is needed), Python
dicts with insertion order by association lists, `None`-able values by
`Option`, and raising code by `Option`-returning functions.
-/

namespace Pixi

/-- The `ChatRole` string-enum of `pixi/enums/__init__.py`. -/
inductive ChatRole where
  | system
  | assistant
  | user
  | tool
deriving DecidableEq, Repr

/-- The string value of a `ChatRole` member (`StrEnum` values in
`pixi/enums/__init__.py`: "system", "assistant", "user", "tool"). -/
def ChatRole.value : ChatRole → String
  | .system => "system"
  | .assistant => "assistant"
  | .user => "user"
  | .tool => "tool"

/-- Python `str.upper` restricted to ASCII, as used by
`ChatMessage.from_dict` (`data["role"].upper()`). -/
def pyUpper (s : String) : String := String.mk (s.data.map Char.toUpper)

/-- `ChatRole[key]` member lookup by name, as in `ChatMessage.from_dict`
(`ChatRole[data["role"].upper()]`); an unknown key raises `KeyError`,
modelled by `none`. -/
def ChatRole.ofKey : String → Option ChatRole
  | "SYSTEM" => some .system
  | "ASSISTANT" => some .assistant
  | "USER" => some .user
  | "TOOL" => some .tool
  | _ => none

/-- `utils.exists` on an optional string with `allow_empty_string=False`:
`None` is falsy and the empty string is falsy. -/
def existsOptStr : Option String → Bool
  | none => false
  | some s => s ≠ ""

/-- `utils.exists` on an optional string with `allow_empty_string=True`:
every string (including the empty one) passes, only `None` fails. -/
def existsOptStrAllowEmpty : Option String → Bool
  | none => false
  | some _ => true

/-- `utils.exists` on an optional list/dict value: `None` and the empty
collection are falsy. -/
def existsOptList {α : Type} : Option (List α) → Bool
  | none => false
  | some l => !l.isEmpty

/-- `utils.exists` on a (non-optional) list value: empty is falsy. -/
def existsList {α : Type} (l : List α) : Bool := !l.isEmpty

/-- A structured tool call (`chatting.FunctionCall`), with the JSON
`arguments` object modelled as an ordered list of key/value pairs with
integer values (sufficient for the inputs considered here). -/
structure FunctionCall where
  name : Option String
  index : Nat
  id : Option String
  arguments : Option (List (String × Int))
deriving DecidableEq, Repr

/-- The constructor arguments of `chatting.ChatMessage.__init__`, after
the `images`/`audio` singleton-to-list normalization (both already lists
of cached-media hashes; the type asserts of lines 101-121 are carried by
the Lean types).  `metadata` is a JSON object modelled as a key/value
list. -/
structure ChatMessageArgs where
  role : ChatRole
  content : Option String
  metadata : Option (List (String × String))
  images : List String
  audio : List String
  toolCalls : Option (List FunctionCall)
  toolCallId : Option String
deriving DecidableEq, Repr

/-- The role-specific validation of `chatting.ChatMessage.__init__`
(lines 124-177): `true` iff every `assert` passes.  Mirrors the source:
`exists(content, True)` accepts any string including the empty one;
`audio` is type-checked but never restricted to a role; `metadata` and
`tool_calls` checks use `utils.exists`, so an empty dict/list passes
`not exists(...)`. -/
def chatMessageValidate (a : ChatMessageArgs) : Bool :=
  match a.role with
  | .system =>
      existsOptStrAllowEmpty a.content &&
      !existsOptList a.metadata &&
      !existsOptList a.toolCalls &&
      !existsOptStr a.toolCallId &&
      !existsList a.images
  | .assistant =>
      !existsOptList a.metadata &&
      !existsOptStr a.toolCallId &&
      !existsList a.images &&
      (if existsOptList a.toolCalls then !existsOptStrAllowEmpty a.content else true)
  | .user =>
      existsOptStrAllowEmpty a.content &&
      (!existsOptList a.toolCalls) &&
      !existsOptStr a.toolCallId
  | .tool =>
      existsOptStrAllowEmpty a.content &&
      !existsOptList a.metadata &&
      existsOptStr a.toolCallId &&
      !existsList a.images

/-- A constructed `chatting.ChatMessage` (the fields stored by
`__init__` at lines 179-189): `tool_calls` is normalized to a list by
`tool_calls or []`, `time` is a positive timestamp. -/
structure ChatMessage where
  role : ChatRole
  content : Option String
  metadata : Option (List (String × String))
  time : Nat
  images : List String
  audio : List String
  toolCalls : List FunctionCall
  toolCallId : Option String
deriving DecidableEq, Repr

/-- Python `x or []` on an optional list (`tool_calls or []` at line
188): `None` and `[]` both give `[]`. -/
def pyOrEmptyList {α : Type} : Option (List α) → List α
  | none => []
  | some l => l

/-- `chatting.ChatMessage.__init__`: validates the role-specific
constraints and stores the fields; a failed `assert` is a fatal
construction error, modelled by `none`.  `messageTime` models the
`message_time` parameter and `now` the `time.time()` fallback
(`message_time if message_time and message_time > 0 else time.time()`,
line 182). -/
def mkChatMessage (a : ChatMessageArgs) (messageTime : Option Nat) (now : Nat) :
    Option ChatMessage :=
  if chatMessageValidate a then
    some {
      role := a.role
      content := a.content
      metadata := a.metadata
      time := match messageTime with
        | some t => if 0 < t then t else now
        | none => now
      images := a.images
      audio := a.audio
      toolCalls := pyOrEmptyList a.toolCalls
      toolCallId := a.toolCallId
    }
  else none

/-! ## Serialization (`ChatMessage.to_dict` / `from_dict`,
`AsyncChatbotInstance.to_dict` / `from_dict` / `save` / `load`)

The Python dicts produced by `to_dict` are modelled by record types with
the same fields; `json.dumps`/`json.loads` of `save`/`load` are a
faithful round trip on these records and are modelled as the identity.
-/

/-- The dict produced by `chatting.FunctionCall.to_dict` (name,
arguments, index, id) and consumed by `FunctionCall.from_dict`; it
carries exactly the fields of `FunctionCall`. -/
structure FunctionCallDict where
  name : Option String
  arguments : Option (List (String × Int))
  index : Nat
  id : Option String
deriving DecidableEq, Repr

/-- `chatting.FunctionCall.to_dict`. -/
def FunctionCall.to_dict (f : FunctionCall) : FunctionCallDict :=
  { name := f.name, arguments := f.arguments, index := f.index, id := f.id }

/-- `chatting.FunctionCall.from_dict`. -/
def FunctionCall.from_dict (d : FunctionCallDict) : FunctionCall :=
  { name := d.name, index := d.index, id := d.id, arguments := d.arguments }

/-- Modelled from the spec: `pixi/caching/base.py` (the `MediaCache`
base class of `ImageCache`/`AudioCache`) is not under `src/`; per the
spec the cache is "content-addressed ... keyed by a digest of the
original bytes" and an attachment is serialized as its digest.  The
superseded in-repo `utils.ImageCache` confirms the shape:
`to_dict = dict(hash=self.hash)` and `from_dict` raises `ValueError`
when the hash is missing/empty.  An attachment is therefore modelled as
its digest string, serialization as the identity, and deserialization
as requiring a non-empty digest. -/
def mediaCacheFromDict (h : String) : Option String :=
  if h = "" then none else some h

/-- A Python list comprehension over a fallible element transformation:
the first raising element aborts the whole construction (`none`). -/
def mapOptionAll {α β : Type} (f : α → Option β) : List α → Option (List β)
  | [] => some []
  | x :: xs => do
      let y ← f x
      let ys ← mapOptionAll f xs
      pure (y :: ys)

/-- The dict produced by `chatting.ChatMessage.to_dict` (lines
197-207): role (as its string value), content, metadata, time, images
and audio (as digest lists), tool_calls (as dicts), tool_call_id. -/
structure ChatMessageDict where
  role : String
  content : Option String
  metadata : Option (List (String × String))
  time : Nat
  images : List String
  audio : List String
  toolCalls : List FunctionCallDict
  toolCallId : Option String
deriving DecidableEq, Repr

/-- `chatting.ChatMessage.to_dict`. -/
def ChatMessage.to_dict (m : ChatMessage) : ChatMessageDict :=
  { role := m.role.value
    content := m.content
    metadata := m.metadata
    time := m.time
    images := m.images
    audio := m.audio
    toolCalls := m.toolCalls.map FunctionCall.to_dict
    toolCallId := m.toolCallId }

/-- `chatting.ChatMessage.from_dict` (lines 209-219): looks the role up
by `ChatRole[data["role"].upper()]`, rebuilds images via
`ImageCache.from_dict` and tool calls via `FunctionCall.from_dict`, and
passes the result through the `ChatMessage` constructor.  Note the
source does NOT read the `audio` key, so deserialized messages carry no
audio attachments.  A `KeyError`/`ValueError`/failed `assert` is
modelled by `none`. -/
def ChatMessage.from_dict (d : ChatMessageDict) (now : Nat) : Option ChatMessage := do
  let role ← ChatRole.ofKey (pyUpper d.role)
  let images ← mapOptionAll mediaCacheFromDict d.images
  mkChatMessage
    { role := role
      content := d.content
      metadata := d.metadata
      images := images
      audio := []
      toolCalls := some (d.toolCalls.map FunctionCall.from_dict)
      toolCallId := d.toolCallId }
    (some d.time) now

/-- `chatbot.AssistantPersona`: a dataclass of descriptive fields;
`to_dict`/`from_dict` are `asdict`/`cls(**data)` and round-trip
exactly, so the dict is modelled by the record itself. -/
structure AssistantPersona where
  name : String
  age : Option Int
  location : Option String
  appearance : Option String
  background : Option String
  likes : Option String
  dislikes : Option String
  online : Option String
deriving DecidableEq, Repr

/-- `chatbot.ASSISTANT_PRE`, the assistant preamble appended by the
`AsyncChatbotInstance` constructor whenever it is given a non-`None`
message list (lines 107-108). -/
def assistantPreContent : String :=
  "[NOTE: I accept the guidelines of the system, I use the SEND command] [SEND: OK!] [SEND: LLLet\x27s begin!]"

/-- The `ChatMessage(ChatRole.ASSISTANT, ASSISTANT_PRE)` built at
`chatbot.py` line 108 (its constructor succeeds: a plain assistant
message with string content). -/
def assistantPreMessage (now : Nat) : ChatMessage :=
  { role := .assistant
    content := some assistantPreContent
    metadata := none
    time := now
    images := []
    audio := []
    toolCalls := []
    toolCallId := none }

/-- The state of a `chatbot.AsyncChatbotInstance` relevant to the
claims: identity, hash namespace, persona, the transcript held by its
`AsyncChatClient`, the ambient realtime data, and the notes-visibility
toggle.  (The `bot` backreference, command manager and per-channel task
lists are platform plumbing outside the claims.) -/
structure ChatbotInstanceState where
  id : String
  hashPfx : String
  persona : AssistantPersona
  messages : List ChatMessage
  realtimeData : List (String × String)
  isNotesVisible : Bool
deriving DecidableEq, Repr

/-- The `AsyncChatbotInstance` constructor (lines 75-110) restricted to
the modelled state: `realtime_data` starts empty, `is_notes_visible`
starts `False`, the client is built on the given messages (`None`
becomes `[]`), and — when `messages is not None` — the `ASSISTANT_PRE`
preamble message is appended. -/
def mkChatbotInstance (uuid : String) (persona : AssistantPersona) (hashPfx : String)
    (messages : Option (List ChatMessage)) (now : Nat) : ChatbotInstanceState :=
  { id := uuid
    hashPfx := hashPfx
    persona := persona
    messages := match messages with
      | none => []
      | some l => l ++ [assistantPreMessage now]
    realtimeData := []
    isNotesVisible := false }

/-- The dict produced by `chatbot.AsyncChatbotInstance.to_dict` (lines
210-216): uuid, prefix, persona dict, message dicts. -/
structure ChatbotInstanceDict where
  uuid : String
  hashPfx : String
  persona : AssistantPersona
  messages : List ChatMessageDict
deriving DecidableEq, Repr

/-- `chatbot.AsyncChatbotInstance.to_dict`. -/
def ChatbotInstanceState.to_dict (s : ChatbotInstanceState) : ChatbotInstanceDict :=
  { uuid := s.id
    hashPfx := s.hashPfx
    persona := s.persona
    messages := s.messages.map ChatMessage.to_dict }

/-- `chatbot.AsyncChatbotInstance.from_dict` (lines 238-246): passes the
deserialized persona and messages to the constructor — which, since the
message list is never `None` here, appends the `ASSISTANT_PRE`
preamble.  A failing message deserialization is modelled by `none`. -/
def ChatbotInstanceState.from_dict (d : ChatbotInstanceDict) (now : Nat) :
    Option ChatbotInstanceState := do
  let msgs ← mapOptionAll (ChatMessage.from_dict · now) d.messages
  pure (mkChatbotInstance d.uuid d.persona d.hashPfx (some msgs) now)

/-- `chatbot.AsyncChatbotInstance.save` (lines 218-221): writes
`json.dumps(self.to_dict())`; the written JSON blob is modelled by the
dict itself. -/
def ChatbotInstanceState.save (s : ChatbotInstanceState) : ChatbotInstanceDict :=
  s.to_dict

/-- `chatbot.AsyncChatbotInstance.load` (lines 223-236) applied to a
present, well-formed save file: replaces `self.persona` and
`self.client.messages` with the deserialized values on the receiving
instance (realtime data and notes visibility are untouched; in the
registry flow the receiver is a freshly constructed instance holding
the defaults).  Message deserialization errors propagate (`none`). -/
def ChatbotInstanceState.load (s : ChatbotInstanceState) (d : ChatbotInstanceDict)
    (now : Nat) : Option ChatbotInstanceState := do
  let msgs ← mapOptionAll (ChatMessage.from_dict · now) d.messages
  pure { s with persona := d.persona, messages := msgs }

/-! ## Think-tag suppression (`AsyncChatClient.stream_completion`,
`chatting.py` lines 441-467)

`stream_request` yields the upstream response one character at a time,
so `stream_completion` consumes single characters regardless of the
transport's chunking; the input is modelled as a `List Char`. -/

/-- The loop state of `stream_completion`: the lookbehind buffer, the
`is_thinking` flag, and the characters yielded so far. -/
structure ThinkState where
  buf : List Char
  thinking : Bool
  out : List Char
deriving DecidableEq, Repr

/-- One iteration of the `stream_completion` loop body (lines 447-463):
append the character to the lookbehind buffer; if the buffer exceeds
`max_buffer_size`, pop its first character and yield it unless
thinking; then, if the buffer ends with the start tag, start thinking
and clear the buffer, else if it ends with the end tag while thinking,
stop thinking and clear the buffer. -/
def thinkStep (startTag endTag : List Char) (maxBuf : Nat) (st : ThinkState)
    (c : Char) : ThinkState :=
  let buf1 := st.buf ++ [c]
  let st1 : ThinkState :=
    if maxBuf < buf1.length then
      { buf := buf1.drop 1
        thinking := st.thinking
        out := if st.thinking then st.out else st.out ++ buf1.take 1 }
    else { st with buf := buf1 }
  if startTag.isSuffixOf st1.buf then
    { st1 with thinking := true, buf := [] }
  else if st1.thinking && endTag.isSuffixOf st1.buf then
    { st1 with thinking := false, buf := [] }
  else st1

/-- `AsyncChatClient.stream_completion`: filter the character stream,
suppressing everything between the think tags; after the stream ends,
the remaining buffer is flushed when not thinking (lines 465-467). -/
def stream_completion (startTag endTag : List Char) (input : List Char) : List Char :=
  let maxBuf := max startTag.length endTag.length
  let fin := input.foldl (thinkStep startTag endTag maxBuf) ⟨[], false, []⟩
  fin.out ++ (if fin.thinking then [] else fin.buf)

/-- The default `start_think_tag`. -/
def startThinkTag : List Char := "<think>".toList

/-- The default `end_think_tag`. -/
def endThinkTag : List Char := "</think>".toList

/-! ## Context-budget enforcement
(`AsyncChatClient.enforce_approximate_context_limit`, `chatting.py`
lines 415-439) -/

/-- `chatting.MAX_CONTEXT_LENGTH`. -/
def maxContextLength : Nat := 8000

/-- The `for cutoff_index, message in enumerate(messages)` scan (lines
418-427): accumulate `len(role) + len(content or "") + 1024*len(audio)
+ 1024*len(images)` and return the index at which the running total
first exceeds `MAX_CONTEXT_LENGTH * 4`; `none` when the loop completes
(the `for/else` sets `cutoff_index = None`). -/
def cutoffScan (acc idx : Nat) : List ChatMessage → Option Nat
  | [] => none
  | m :: rest =>
      let acc' := acc + m.role.value.length + (m.content.getD "").length
        + 1024 * m.audio.length + 1024 * m.images.length
      if maxContextLength * 4 < acc' then some idx
      else cutoffScan acc' (idx + 1) rest

/-- `AsyncChatClient.enforce_approximate_context_limit`.  Note the
guard at line 429 is `if cutoff_index:`, which is false both for `None`
and for `0`; the `cutoff_index == 0` branch at lines 430-436 (truncate
the first message and prefix the cut-off marker) is therefore
unreachable, and a cutoff at index 0 returns the messages unchanged.
For a truthy `cutoff_index` the result is the Python slice
`messages[-(cutoff_index-1):]` (the whole list when the slice bound is
`-0`). -/
def enforce_approximate_context_limit (systemPrompt : Option String)
    (messages : List ChatMessage) : List ChatMessage :=
  let systemPromptSize := (systemPrompt.getD "").length
  match cutoffScan systemPromptSize 0 messages with
  | none => messages
  | some 0 => messages
  | some (k + 1) =>
      if k = 0 then messages
      else messages.drop (messages.length - k)

/-! ## Streaming tool-call accumulation (`AsyncChatClient.stream_request`,
`chatting.py` lines 515-612)

`json.loads`, as applied by `PartialFunctionCall.to_function_call`, is
modelled for flat JSON objects with integer values — sufficient for the
argument payloads considered here; malformed input (a
`json.JSONDecodeError` in Python, which aborts the request) is
modelled by `none`. -/

/-- Skip JSON whitespace. -/
def skipWs : List Char → List Char
  | c :: cs => if c = ' ' || c = '\t' || c = '\n' || c = '\r' then skipWs cs else c :: cs
  | [] => []

/-- Consume the characters of a JSON string up to the closing quote
(escape sequences are not modelled; the inputs considered contain
none). -/
def parseStrChars : List Char → Option (List Char × List Char)
  | [] => none
  | c :: cs =>
      if c = '"' then some ([], cs)
      else do
        let (s, rest) ← parseStrChars cs
        pure (c :: s, rest)

/-- Consume a run of decimal digits. -/
def parseDigits (acc : Nat) : List Char → Nat × List Char
  | c :: cs =>
      if c.isDigit then parseDigits (acc * 10 + (c.toNat - 48)) cs
      else (acc, c :: cs)
  | [] => (acc, [])

/-- Consume a JSON integer (optional leading minus). -/
def parseIntNum : List Char → Option (Int × List Char)
  | '-' :: cs =>
      match cs with
      | c :: _ =>
          if c.isDigit then
            let (n, rest) := parseDigits 0 cs
            some (-(n : Int), rest)
          else none
      | [] => none
  | c :: cs =>
      if c.isDigit then
        let (n, rest) := parseDigits (c.toNat - 48) cs
        some ((n : Int), rest)
      else none
  | [] => none

/-- Consume the `"key": value` pairs of a JSON object after its opening
brace, up to and including the closing brace.  The fuel argument bounds
the recursion by the input length. -/
def parsePairs : Nat → List Char → Option (List (String × Int) × List Char)
  | 0, _ => none
  | fuel + 1, cs =>
      match skipWs cs with
      | '"' :: rest => do
          let (key, rest1) ← parseStrChars rest
          match skipWs rest1 with
          | ':' :: rest2 => do
              let (v, rest3) ← parseIntNum (skipWs rest2)
              match skipWs rest3 with
              | ',' :: rest4 => do
                  let (ps, rest5) ← parsePairs fuel rest4
                  pure ((String.mk key, v) :: ps, rest5)
              | '}' :: rest4 => pure ([(String.mk key, v)], rest4)
              | _ => none
          | _ => none
      | _ => none

/-- `json.loads` restricted to a flat JSON object with integer values;
`none` models a `json.JSONDecodeError`. -/
def jsonLoadsObject (s : String) : Option (List (String × Int)) :=
  match skipWs s.toList with
  | '{' :: rest =>
      match skipWs rest with
      | '}' :: rest2 => if (skipWs rest2).isEmpty then some [] else none
      | _ => do
          let (ps, rest2) ← parsePairs (s.length + 1) rest
          if (skipWs rest2).isEmpty then pure ps else none
  | _ => none

/-- `chatting.PartialFunctionCall`: the per-index accumulator whose
`arguments` is the raw concatenated fragment text. -/
structure PartialFunctionCall where
  name : Option String
  index : Nat
  id : Option String
  arguments : Option String
deriving DecidableEq, Repr

/-- `PartialFunctionCall.to_function_call` (lines 65-71):
`json.loads(self.arguments) if self.arguments else {}` — `None` and the
empty string give the empty object, malformed JSON raises (modelled by
`none`). -/
def PartialFunctionCall.to_function_call (p : PartialFunctionCall) : Option FunctionCall :=
  match p.arguments with
  | none => some { name := p.name, index := p.index, id := p.id, arguments := some [] }
  | some s =>
      if s = "" then
        some { name := p.name, index := p.index, id := p.id, arguments := some [] }
      else
        (jsonLoadsObject s).map fun args =>
          { name := p.name, index := p.index, id := p.id, arguments := some args }

/-- One `tool_call` delta of a streamed chat-completion event: its
stream-assigned index, and optional id, function name and argument
fragment. -/
structure ToolCallFragment where
  index : Nat
  id : Option String
  name : Option String
  arguments : Option String
deriving DecidableEq, Repr

/-- Lookup in an insertion-ordered Python dict keyed by `Nat`. -/
def dictGet {α : Type} (d : List (Nat × α)) (k : Nat) : Option α :=
  (d.find? (fun p => p.1 == k)).map Prod.snd

/-- Assignment in an insertion-ordered Python dict: replace in place,
or append as the newest entry. -/
def dictSet {α : Type} : List (Nat × α) → Nat → α → List (Nat × α)
  | [], k, v => [(k, v)]
  | (k', v') :: rest, k, v =>
      if k' = k then (k, v) :: rest else (k', v') :: dictSet rest k v

/-- `dict.pop` on an insertion-ordered Python dict. -/
def dictPop {α : Type} : List (Nat × α) → Nat → Option α × List (Nat × α)
  | [], _ => (none, [])
  | (k', v') :: rest, k =>
      if k' = k then (some v', rest)
      else
        let (r, rest') := dictPop rest k
        (r, (k', v') :: rest')

/-- `dict.values()` on an insertion-ordered Python dict. -/
def dictValues {α : Type} (d : List (Nat × α)) : List α := d.map Prod.snd

/-- The tool-call bookkeeping of the `stream_request` event loop:
`partial_function_calls`, `last_function_call_index`, and the calls
handed to the tool-call queue during the stream, in dispatch order
(a `none` entry records a `to_function_call` that raised, which in
Python aborts the request). -/
structure ToolStreamState where
  pendingCalls : List (Nat × PartialFunctionCall)
  lastIndex : Option Nat
  dispatched : List (Option FunctionCall)
deriving DecidableEq, Repr

/-- The per-fragment body of the `for tool_call in _tool_calls` loop
(`chatting.py` lines 542-573): merge the fragment into
`partial_function_calls[function_index]` (appending non-empty argument
text to an existing entry, otherwise creating a new entry); then, if
`last_function_call_index` is set and differs from this fragment's
index, `pop` THIS fragment's index, finalize it with
`to_function_call`, and queue it; finally set
`last_function_call_index` to this fragment's index. -/
def processToolCallFragment (st : ToolStreamState) (f : ToolCallFragment) :
    ToolStreamState :=
  let pending1 :=
    match dictGet st.pendingCalls f.index with
    | some prev =>
        let newArgs :=
          match f.arguments with
          | some a =>
              if a ≠ "" then some ((prev.arguments.getD "") ++ a)
              else prev.arguments
          | none => prev.arguments
        dictSet st.pendingCalls f.index
          { name := prev.name, index := f.index, id := prev.id, arguments := newArgs }
    | none =>
        dictSet st.pendingCalls f.index
          { name := f.name, index := f.index, id := f.id, arguments := f.arguments }
  let st1 := { st with pendingCalls := pending1 }
  match st.lastIndex with
  | some li =>
      if f.index ≠ li then
        let (popped, pending2) := dictPop st1.pendingCalls f.index
        { pendingCalls := pending2
          lastIndex := some f.index
          dispatched := st1.dispatched ++ [popped.bind PartialFunctionCall.to_function_call] }
      else { st1 with lastIndex := some f.index }
  | none => { st1 with lastIndex := some f.index }

/-- The tool-call side of one streamed request: fold the fragments
through the event loop, returning the calls dispatched DURING the
stream (via the tool-call queue, line 572) and the calls dispatched
AFTER the stream ends from the remaining `partial_function_calls`
(line 594). -/
def stream_request_tool_calls (frags : List ToolCallFragment) :
    List (Option FunctionCall) × List (Option FunctionCall) :=
  let fin := frags.foldl processToolCallFragment ⟨[], none, []⟩
  (fin.dispatched, (dictValues fin.pendingCalls).map PartialFunctionCall.to_function_call)

/-! ## Bounded retry with checkpoint rollback
(`PixiClient.pixi_resp_retry`, `client.py` lines 534-577)

One attempt (`pixi_resp`, whose effects are network/platform I/O) is
abstracted as an outcome: either it returns `True` leaving the
transcript in some state, or it raises leaving the transcript in some
(possibly half-updated) state that the caller then discards.
`pixi_resp` never returns `False` (its `responded` local is hard-coded
to `True` at line 525), so those are the only outcomes. -/

/-- The outcome of one `pixi_resp` call, with the transcript it leaves
behind. -/
inductive AttemptOutcome (α : Type) where
  | ok (messages : List α)
  | raise (messages : List α)
deriving DecidableEq, Repr

/-- The observable result of `pixi_resp_retry`: the returned value
(`some true` for `return True`; `none` for the implicit `None` when the
loop is exhausted — the source never raises out of the loop), the final
transcript, the transcript passed to `instance.save()` if any, and the
number of attempts made. -/
structure RetryResult (α : Type) where
  returned : Option Bool
  messages : List α
  saved : Option (List α)
  attemptsMade : Nat
deriving DecidableEq, Repr

/-- The `for i in range(num_retry)` loop of `pixi_resp_retry` (lines
564-577): snapshot the transcript, run the attempt; on success save and
return `True`; on an exception (caught at line 568) restore the
snapshot and continue; falling off the loop returns `None`. -/
def retryLoop {α : Type} (attempt : Nat → List α → AttemptOutcome α) :
    Nat → Nat → List α → RetryResult α
  | i, 0, cur => { returned := none, messages := cur, saved := none, attemptsMade := i }
  | i, rem + 1, cur =>
      match attempt i cur with
      | .ok m => { returned := some true, messages := m, saved := some m, attemptsMade := i + 1 }
      | .raise _ => retryLoop attempt (i + 1) rem cur

/-- `PixiClient.pixi_resp_retry` with its default `num_retry = 3`. -/
def pixi_resp_retry {α : Type} (numRetry : Nat)
    (attempt : Nat → List α → AttemptOutcome α) (messages : List α) : RetryResult α :=
  retryLoop attempt 0 numRetry messages

/-! ## The inline command interpreter
(`AsyncCommandManager.stream_commands`, `commands.py` lines 54-109)

The stream items handed to `process` are modelled as `List Char`
values: the source compares each item against `"["` and `"]"` as a
whole, so an item is a single character only when the upstream feeds
characters one at a time. -/

/-- Python `str.strip()`. -/
def stripChars (cs : List Char) : List Char :=
  ((cs.dropWhile Char.isWhitespace).reverse.dropWhile Char.isWhitespace).reverse

/-- Python `str.index(c)`: the position of the first occurrence (only
applied when the character is present). -/
def firstIdx (c : Char) : List Char → Nat
  | [] => 0
  | x :: xs => if x = c then 0 else firstIdx c xs + 1

/-- Python `str.lower()` (ASCII). -/
def lowerChars (cs : List Char) : List Char := cs.map Char.toLower

/-- The command-text parsing of `stream_commands` (lines 76-86): strip
the surrounding brackets; if the buffer contains a `:`, take the index
of the first `:` in the bracket-stripped text; then — only when that
index is truthy (not `None` and not `0`) — split there and strip
whitespace from name and data; otherwise the whole bracket-stripped
text, unstripped, is the name and there is no data. -/
def parseCommandStr (commandStr : List Char) : List Char × Option (List Char) :=
  let inner := (commandStr.drop 1).dropLast
  let sepIdx : Option Nat :=
    if ':' ∈ commandStr then some (firstIdx ':' inner) else none
  match sepIdx with
  | some i =>
      if i ≠ 0 then (stripChars (inner.take i), some (stripChars (inner.drop (i + 1))))
      else (inner, none)
  | none => (inner, none)

/-- Python `if result:` on the value returned by `process`: only a
non-`None`, non-empty string is yielded. -/
def yieldOf : Option (List Char) → List (List Char)
  | none => []
  | some r => if r.isEmpty then [] else [r]

/-- The interpreter state across stream items: the signed
`inside_command` depth, the accumulation buffer, the dispatched
`(lowercased name, data)` pairs in dispatch order, the plain items
yielded downstream, and the name of an unknown command whose
`NotImplementedError` aborted the generator (after which no further
item is processed). -/
structure CommandStreamState where
  insideCommand : Int
  commandStr : List Char
  dispatched : List (List Char × Option (List Char))
  yielded : List (List Char)
  raisedUnknown : Option (List Char)
deriving DecidableEq, Repr

/-- One `process(char)` call of `stream_commands` (lines 58-96) plus
the caller's `if result: yield result`: on `"["` increment the depth;
buffer the item when the depth is non-zero, otherwise mark it for
yielding; on `"]"` decrement the depth and, when it returns to exactly
zero, parse the buffer, look the lowercased name up in the command
table, dispatch it (or raise `NotImplementedError` for an unknown
name, which ends the stream), and clear the buffer.  `table` holds the
lowercased registered command names (`_add_command` lowercases keys). -/
def processStreamItem (table : List (List Char)) (st : CommandStreamState)
    (item : List Char) : CommandStreamState :=
  if st.raisedUnknown.isSome then st
  else
    let inside1 : Int := if item = ['['] then st.insideCommand + 1 else st.insideCommand
    let (commandStr1, result) :=
      if inside1 ≠ 0 then (st.commandStr ++ item, (none : Option (List Char)))
      else (st.commandStr, some item)
    if item = [']'] then
      let inside2 := inside1 - 1
      if inside2 = 0 then
        let (name, data) := parseCommandStr commandStr1
        if table.contains (lowerChars name) then
          { insideCommand := inside2
            commandStr := []
            dispatched := st.dispatched ++ [(lowerChars name, data)]
            yielded := st.yielded ++ yieldOf result
            raisedUnknown := none }
        else
          { insideCommand := inside2
            commandStr := commandStr1
            dispatched := st.dispatched
            yielded := st.yielded
            raisedUnknown := some name }
      else
        { st with
          insideCommand := inside2
          commandStr := commandStr1
          yielded := st.yielded ++ yieldOf result }
    else
      { st with
        insideCommand := inside1
        commandStr := commandStr1
        yielded := st.yielded ++ yieldOf result }

/-- `AsyncCommandManager.stream_commands`: fold the stream items
through `process`. -/
def stream_commands (table : List (List Char)) (items : List (List Char)) :
    CommandStreamState :=
  items.foldl (processStreamItem table) ⟨0, [], [], [], none⟩

/-- Feed a text one character at a time (each stream item a
single-character string), as `stream_completion`'s character-level
yielding does. -/
def charItems (s : String) : List (List Char) := s.toList.map ([·])

/-! ## Temporal asks (`AsyncChatClient.stream_ask`, `chatting.py`
lines 613-629) -/

/-- The `AsyncChatClient` fields relevant to `stream_ask`: the stored
message list plus the configuration fields that the call must leave
untouched. -/
structure ClientState where
  messages : List ChatMessage
  model : String
  system_prompt : Option String
  toolNames : List String
deriving DecidableEq, Repr

/-- `AsyncChatClient.stream_ask`: when `temporal`, copy
`self.messages` (line 615); append the user message (line 623); run the
streamed completion to exhaustion — its effect on `self.messages`
(assistant/tool appends made by `stream_request`) is abstracted as
`completionEffect`; finally, when `temporal`, assign the saved copy
back to `self.messages` (line 629). -/
def stream_ask (temporal : Bool) (userMessage : ChatMessage)
    (completionEffect : List ChatMessage → List ChatMessage)
    (st : ClientState) : ClientState :=
  let origMessages := st.messages
  let st1 := { st with messages := st.messages ++ [userMessage] }
  let st2 := { st1 with messages := completionEffect st1.messages }
  if temporal then { st2 with messages := origMessages } else st2

/-! ## Concrete inputs used by the claim theorems -/

/-- The tool-call fragment sequence of the spec's accumulation example:
three fragments at index 0 carrying the argument pieces of the object
binding key "a" to 1, followed by a first fragment at index 1. -/
def toolCallFragmentsExample : List ToolCallFragment :=
  [ { index := 0, id := some "id0", name := some "get_weather"
      arguments := some (String.mk ['{', '"', 'a', '"', ':']) }
  , { index := 0, id := none, name := none, arguments := some "1" }
  , { index := 0, id := none, name := none, arguments := some (String.mk ['}']) }
  , { index := 1, id := some "id1", name := some "other_tool", arguments := none } ]

/-- A user message whose approximate request size alone
(`len(role) + len(content) + 1024*len(audio) + 1024*len(images)` =
4 + 2 + 0 + 32768 = 32774) exceeds `MAX_CONTEXT_LENGTH * 4 = 32000`:
the oldest message alone exceeds the configured context budget. -/
def oversizedOldestMessage : ChatMessage :=
  { role := .user
    content := some "hi"
    metadata := none
    time := 1
    images := List.replicate 32 "imagehash"
    audio := []
    toolCalls := []
    toolCallId := none }

/-- The constructor arguments that re-validating a stored message's
serialized fields presents to `ChatMessage.__init__` (`from_dict` does
not read the `audio` key, so the audio list is empty). -/
def argsOfStored (m : ChatMessage) : ChatMessageArgs :=
  { role := m.role
    content := m.content
    metadata := m.metadata
    images := m.images
    audio := []
    toolCalls := some m.toolCalls
    toolCallId := m.toolCallId }

/-- A stored message that a successful `ChatMessage` construction can
produce and whose image attachments deserialize: its serialized fields
re-validate, its timestamp is positive, and its image digests are
non-empty. -/
def messageWellFormed (m : ChatMessage) : Bool :=
  chatMessageValidate (argsOfStored m) && decide (0 < m.time)
    && m.images.all (fun h => h != "")

/-- A concrete persona. -/
def personaExample : AssistantPersona :=
  { name := "Pixi", age := some 19, location := none, appearance := none
    background := none, likes := none, dislikes := none, online := none }

/-- A concrete instance whose non-empty transcript holds one message of
each role (the round-trip claim's precondition). -/
def fourRoleInstance : ChatbotInstanceState :=
  { id := "user1"
    hashPfx := "discord"
    persona := personaExample
    messages :=
      [ { role := .system, content := some "sys", metadata := none, time := 1
          images := [], audio := [], toolCalls := [], toolCallId := none }
      , { role := .user, content := some "hi", metadata := some [("channel_id", "42")]
          time := 2, images := ["imagehash1"], audio := [], toolCalls := []
          toolCallId := none }
      , { role := .assistant, content := some "hello", metadata := none, time := 3
          images := [], audio := [], toolCalls := [], toolCallId := none }
      , { role := .tool, content := some "result", metadata := none, time := 4
          images := [], audio := [], toolCalls := [], toolCallId := some "call1" } ]
    realtimeData := []
    isNotesVisible := false }

/-- An attempt oracle whose first try raises and whose second try
succeeds with the transcript `[5]`. -/
def retryWitnessAttempt : Nat → List Nat → AttemptOutcome Nat :=
  fun i _ => if i = 1 then .ok [5] else .raise []

/-- A command table holding the single registered command `send`
(keys are stored lowercased by `_add_command`). -/
def sendCommandTable : List (List Char) := ["send".toList]

/-! ## Helper lemmas -/

/-- `utils.exists` on an optional string is falsy exactly for `None`
and the empty string. -/
theorem existsOptStr_eq_false {o : Option String} :
    existsOptStr o = false ↔ o = none ∨ o = some "" := by
  cases o with
  | none => simp [existsOptStr]
  | some s => simp [existsOptStr]

/-- `utils.exists` on an optional string is truthy exactly for a
non-empty string. -/
theorem existsOptStr_eq_true {o : Option String} :
    existsOptStr o = true ↔ ∃ s, o = some s ∧ s ≠ "" := by
  cases o with
  | none => simp [existsOptStr]
  | some s => simp [existsOptStr]

/-- `utils.exists` with `allow_empty_string=True` is truthy exactly for
a present string. -/
theorem existsOptStrAllowEmpty_eq_true {o : Option String} :
    existsOptStrAllowEmpty o = true ↔ o.isSome = true := by
  cases o <;> simp [existsOptStrAllowEmpty]

/-- `utils.exists` on an optional collection is falsy exactly for
`None` and the empty collection. -/
theorem existsOptList_eq_false {α : Type} {o : Option (List α)} :
    existsOptList o = false ↔ o = none ∨ o = some [] := by
  cases o with
  | none => simp [existsOptList]
  | some l => cases l <;> simp [existsOptList]

/-- `utils.exists` on a collection is falsy exactly for the empty
collection. -/
theorem existsList_eq_false {α : Type} {l : List α} :
    existsList l = false ↔ l = [] := by
  cases l <;> simp [existsList]

/-- The position of the first occurrence of a character that is absent
from the preceding segment. -/
theorem firstIdx_append {c : Char} {pre : List Char} (post : List Char)
    (h : c ∉ pre) : firstIdx c (pre ++ c :: post) = pre.length := by
  induction pre with
  | nil => simp [firstIdx]
  | cons x xs ih =>
      have hx : x ≠ c := fun he => h (he ▸ List.mem_cons_self x xs)
      have hxs : c ∉ xs := fun hm => h (List.mem_cons_of_mem x hm)
      simp [firstIdx, hx, ih hxs]

/-- Dropping past a distinguished element of an appended list. -/
theorem drop_append_succ {α : Type} (pre : List α) (x : α) (post : List α) :
    (pre ++ x :: post).drop (pre.length + 1) = post := by
  induction pre with
  | nil => simp
  | cons y ys ih => simp [ih]

/-- `command_str[1:-1]` recovers the inner text of a bracketed
buffer. -/
theorem inner_of_bracketed (inner : List Char) :
    (('[' :: inner ++ [']']).drop 1).dropLast = inner := by
  have h1 : ('[' :: inner ++ [']']) = '[' :: (inner ++ [']']) := by simp
  rw [h1, List.drop_succ_cons, List.drop_zero, List.dropLast_concat]

/-- `FunctionCall` serialization round-trips. -/
theorem fc_roundtrip (f : FunctionCall) :
    FunctionCall.from_dict (FunctionCall.to_dict f) = f := rfl

/-- `FunctionCall` list serialization round-trips. -/
theorem fc_map_roundtrip (l : List FunctionCall) :
    (l.map FunctionCall.to_dict).map FunctionCall.from_dict = l := by
  rw [List.map_map]
  have h : FunctionCall.from_dict ∘ FunctionCall.to_dict = id :=
    funext fun f => fc_roundtrip f
  rw [h, List.map_id]

/-- Deserializing a list of non-empty attachment digests succeeds and
returns them unchanged. -/
theorem mapOptionAll_media (l : List String) (h : ∀ x ∈ l, x ≠ "") :
    mapOptionAll mediaCacheFromDict l = some l := by
  induction l with
  | nil => rfl
  | cons x xs ih =>
      have hx : x ≠ "" := h x (List.mem_cons_self x xs)
      have hxs : ∀ y ∈ xs, y ≠ "" := fun y hy => h y (List.mem_cons_of_mem x hy)
      simp [mapOptionAll, mediaCacheFromDict, hx, ih hxs]

/-- `ChatRole[value.upper()]` recovers the role serialized by
`to_dict`. -/
theorem rolekey_roundtrip (r : ChatRole) :
    ChatRole.ofKey (pyUpper r.value) = some r := by
  cases r <;> decide

/-- A well-formed stored message without audio attachments round-trips
through `to_dict`/`from_dict` unchanged. -/
theorem message_roundtrip (m : ChatMessage) (now : Nat)
    (hwf : messageWellFormed m = true) (ha : m.audio = []) :
    ChatMessage.from_dict m.to_dict now = some m := by
  have hv : chatMessageValidate (argsOfStored m) = true := by
    simp only [messageWellFormed, Bool.and_eq_true] at hwf
    exact hwf.1.1
  have ht : 0 < m.time := by
    simp only [messageWellFormed, Bool.and_eq_true, decide_eq_true_eq] at hwf
    exact hwf.1.2
  have hi : ∀ x ∈ m.images, x ≠ "" := by
    simp only [messageWellFormed, Bool.and_eq_true, List.all_eq_true, bne_iff_ne,
      ne_eq] at hwf
    exact hwf.2
  unfold ChatMessage.from_dict ChatMessage.to_dict
  rw [rolekey_roundtrip]
  simp only [Option.bind_eq_bind, Option.some_bind, mapOptionAll_media m.images hi]
  unfold mkChatMessage
  rw [fc_map_roundtrip]
  rw [if_pos]
  · cases m
    simp_all [pyOrEmptyList]
  · exact hv

/-- A transcript of well-formed, audio-free messages round-trips
through serialization unchanged. -/
theorem mapOptionAll_messages (l : List ChatMessage) (now : Nat)
    (h : ∀ m ∈ l, messageWellFormed m = true ∧ m.audio = []) :
    mapOptionAll (ChatMessage.from_dict · now) (l.map ChatMessage.to_dict) = some l := by
  induction l with
  | nil => rfl
  | cons x xs ih =>
      obtain ⟨hx, ha⟩ := h x (List.mem_cons_self x xs)
      have hxs : ∀ m ∈ xs, messageWellFormed m = true ∧ m.audio = [] :=
        fun m hm => h m (List.mem_cons_of_mem x hm)
      simp [mapOptionAll, message_roundtrip x now hx ha, ih hxs]

/-! ## Claim theorems -/

/-- C1: evaluation of the tool-call fragment loop at the spec's
accumulation example.  The claim states that when the first fragment at
index 1 arrives, the pending call at index 0 is finalized (arguments
`{"a": 1}`) and dispatched before index 1 begins accumulating.  The
code instead pops and queues the JUST-CREATED index-1 entry (with only
its first argument fragment, here none, finalized to the empty object)
at that moment, and index 0's completed call is dispatched only after
the stream ends, from the remaining `partial_function_calls` — the
opposite of what the code's own comment ("if the model is producing a
new function call, we can assume the function call is finished
generating") intends. -/
theorem c1_tool_call_dispatch_eval :
    stream_request_tool_calls toolCallFragmentsExample =
      ([some { name := some "other_tool", index := 1, id := some "id1"
               arguments := some [] }],
       [some { name := some "get_weather", index := 0, id := some "id0"
               arguments := some [("a", 1)] }]) := by
  decide

/-- C2: evaluation of the think-tag filter at the spec's example.  The
claim states that streaming the characters of
"he&lt;think&gt;secret&lt;/think&gt;llo" yields exactly "hello"; the
code yields "hllo": when the start tag is recognized, the whole
lookbehind buffer is cleared, discarding the already-confirmed content
character that precedes the tag inside the buffer (here the "e"). -/
theorem c2_think_filter_eval :
    stream_completion startThinkTag endThinkTag
        "he<think>secret</think>llo".toList = "hllo".toList
    ∧ "hllo".toList ≠ "hello".toList := by
  refine ⟨by decide, by decide⟩

/-- C3: evaluation of the context-limit step at a single user message
whose approximate size (32774) alone exceeds the budget
(`MAX_CONTEXT_LENGTH * 4 = 32000`).  The claim states the message is
retained with truncated content prefixed by a cut-off marker; the code
returns the message list completely unchanged, because the guard
`if cutoff_index:` is falsy at cutoff index 0 and the truncation branch
is unreachable.  (The resulting list is indeed non-empty, but no
truncation or marker is applied.) -/
theorem c3_context_limit_eval :
    maxContextLength * 4 <
      oversizedOldestMessage.role.value.length
        + (oversizedOldestMessage.content.getD "").length
        + 1024 * oversizedOldestMessage.audio.length
        + 1024 * oversizedOldestMessage.images.length
    ∧ enforce_approximate_context_limit none [oversizedOldestMessage]
        = [oversizedOldestMessage] := by
  refine ⟨by decide, by decide⟩

/-- C4 counterexample: a concrete instance with a non-empty transcript
holding one message of each role for which
`from_dict (to_dict instance)` does NOT reproduce an identical
transcript: the reconstructed instance has five messages, the original
four, because the `AsyncChatbotInstance` constructor appends the
`ASSISTANT_PRE` preamble whenever it receives a message list. -/
theorem c4_roundtrip_counterexample :
    (ChatbotInstanceState.from_dict fourRoleInstance.to_dict 9).map
        (fun s => s.messages.length) = some 5
    ∧ fourRoleInstance.messages.length = 4 := by
  refine ⟨by decide, by decide⟩

/-- C4 amended: for every instance whose stored messages are
well-formed and carry no audio attachments (audio is dropped by message
deserialization, which never reads the `audio` key), `load` of `save`
on a freshly constructed receiver reproduces the identical transcript
and persona with realtime context and notes-visibility at their
defaults; `from_dict` of `to_dict` reproduces the same transcript with
one extra `ASSISTANT_PRE` assistant preamble message appended by the
constructor. -/
theorem c4_roundtrip_amended (s : ChatbotInstanceState) (now : Nat)
    (h : ∀ m ∈ s.messages, messageWellFormed m = true ∧ m.audio = []) :
    (ChatbotInstanceState.load
        (mkChatbotInstance s.id s.persona s.hashPfx none now) s.save now
      = some { id := s.id, hashPfx := s.hashPfx, persona := s.persona,
               messages := s.messages, realtimeData := [], isNotesVisible := false })
    ∧ ChatbotInstanceState.from_dict s.to_dict now
      = some { id := s.id, hashPfx := s.hashPfx, persona := s.persona,
               messages := s.messages ++ [assistantPreMessage now],
               realtimeData := [], isNotesVisible := false } := by
  have hm := mapOptionAll_messages s.messages now h
  constructor
  · unfold ChatbotInstanceState.load ChatbotInstanceState.save
      ChatbotInstanceState.to_dict mkChatbotInstance
    simp [hm]
  · unfold ChatbotInstanceState.from_dict ChatbotInstanceState.to_dict mkChatbotInstance
    simp [hm]

/-- C4 witness: the amended round-trip instantiated at the concrete
four-role instance. -/
theorem c4_roundtrip_amended_witness :
    (ChatbotInstanceState.load
        (mkChatbotInstance fourRoleInstance.id fourRoleInstance.persona
          fourRoleInstance.hashPfx none 9)
        fourRoleInstance.save 9
      = some { id := fourRoleInstance.id, hashPfx := fourRoleInstance.hashPfx,
               persona := fourRoleInstance.persona,
               messages := fourRoleInstance.messages,
               realtimeData := [], isNotesVisible := false })
    ∧ ChatbotInstanceState.from_dict fourRoleInstance.to_dict 9
      = some { id := fourRoleInstance.id, hashPfx := fourRoleInstance.hashPfx,
               persona := fourRoleInstance.persona,
               messages := fourRoleInstance.messages ++ [assistantPreMessage 9],
               realtimeData := [], isNotesVisible := false } :=
  c4_roundtrip_amended fourRoleInstance 9 (by decide)

/-- C5 counterexample: with every attempt raising, `pixi_resp_retry`
(default `num_retry = 3`) makes exactly three guarded attempts, then
falls off the loop and returns `None` with the transcript restored —
there is no fourth, unguarded attempt and no exception propagates to
the caller, contrary to the claim's "followed by one final unguarded
attempt whose failure propagates". -/
theorem c5_retry_counterexample :
    pixi_resp_retry 3 (fun _ _ => AttemptOutcome.raise ([] : List Nat)) [1, 2]
      = { returned := none, messages := [1, 2], saved := none, attemptsMade := 3 } := rfl

/-- C5 amended: before each of at most three guarded attempts the
transcript is snapshotted; a raising attempt has its transcript changes
rolled back to the snapshot and the cycle retried; a successful attempt
saves and returns `True` with the attempt's transcript; after three
failed attempts the call returns `None` (no further attempt, nothing
saved) leaving the transcript at the last restored checkpoint. -/
theorem c5_retry_amended {α : Type} (attempt : Nat → List α → AttemptOutcome α)
    (msgs : List α) :
    ((∀ i, i < 3 → ∃ m, attempt i msgs = .raise m) →
      pixi_resp_retry 3 attempt msgs =
        { returned := none, messages := msgs, saved := none, attemptsMade := 3 })
    ∧ (∀ j m, j < 3 → attempt j msgs = .ok m →
        (∀ i, i < j → ∃ w, attempt i msgs = .raise w) →
        pixi_resp_retry 3 attempt msgs =
          { returned := some true, messages := m, saved := some m,
            attemptsMade := j + 1 }) := by
  constructor
  · intro h
    obtain ⟨m0, h0⟩ := h 0 (by omega)
    obtain ⟨m1, h1⟩ := h 1 (by omega)
    obtain ⟨m2, h2⟩ := h 2 (by omega)
    simp [pixi_resp_retry, retryLoop, h0, h1, h2]
  · intro j m hj hok hprev
    interval_cases j
    · simp [pixi_resp_retry, retryLoop, hok]
    · obtain ⟨m0, h0⟩ := hprev 0 (by omega)
      simp [pixi_resp_retry, retryLoop, h0, hok]
    · obtain ⟨m0, h0⟩ := hprev 0 (by omega)
      obtain ⟨m1, h1⟩ := hprev 1 (by omega)
      simp [pixi_resp_retry, retryLoop, h0, h1, hok]

/-- C5 witness: the amended retry behaviour instantiated at an oracle
that raises once and then succeeds with transcript `[5]`. -/
theorem c5_retry_amended_witness :
    pixi_resp_retry 3 retryWitnessAttempt [9] =
      { returned := some true, messages := [5], saved := some [5], attemptsMade := 2 } :=
  (c5_retry_amended retryWitnessAttempt [9]).2 1 [5] (by omega) (by rfl)
    (fun i hi => ⟨[], by interval_cases i; rfl⟩)

/-- C6 counterexample: dispatch is NOT independent of chunking.
Feeding the characters of "[SEND: hi]" one at a time dispatches one
`send` command with data "hi"; feeding the same text as a single chunk
(or as the chunks "[SE", "ND: h", "i]") dispatches nothing, because
`process` compares each stream item as a whole against "[" and "]". -/
theorem c6_chunking_counterexample :
    (stream_commands sendCommandTable (charItems "[SEND: hi]")).dispatched
        = [("send".toList, some "hi".toList)]
    ∧ (stream_commands sendCommandTable ["[SEND: hi]".toList]).dispatched = []
    ∧ (stream_commands sendCommandTable (charItems "[SEND: hi]")).dispatched
        ≠ (stream_commands sendCommandTable ["[SEND: hi]".toList]).dispatched := by
  refine ⟨by decide, by decide, by decide⟩

/-- C6 amended: the interpreter parses commands only when fed one
character at a time (as its upstream character-level generator does):
the char-by-char feed of "[SEND: hi]" dispatches exactly one `send`
command with data "hi" and yields nothing, while the same text fed as
one chunk, or split as "[SE", "ND: h", "i]", is yielded verbatim with
no dispatch and no error. -/
theorem c6_chunking_amended :
    stream_commands sendCommandTable (charItems "[SEND: hi]") =
      { insideCommand := 0, commandStr := []
        dispatched := [("send".toList, some "hi".toList)]
        yielded := [], raisedUnknown := none }
    ∧ stream_commands sendCommandTable ["[SEND: hi]".toList] =
      { insideCommand := 0, commandStr := [], dispatched := []
        yielded := ["[SEND: hi]".toList], raisedUnknown := none }
    ∧ stream_commands sendCommandTable ["[SE".toList, "ND: h".toList, "i]".toList] =
      { insideCommand := 0, commandStr := [], dispatched := []
        yielded := ["[SE".toList, "ND: h".toList, "i]".toList]
        raisedUnknown := none } := by
  refine ⟨by decide, by decide, by decide⟩

/-- C7: while the bracket-depth counter is positive, a processed item
never adds to the yielded output (it is buffered instead), so a
command's argument may contain nested bracket pairs; and the input
"[SEND: outer [inner] still-outer]" fed character by character yields
zero plain characters and dispatches exactly one `send` command with
data "outer [inner] still-outer". -/
theorem c7_nested_brackets :
    (∀ (table : List (List Char)) (st : CommandStreamState) (item : List Char),
        0 < st.insideCommand →
        (processStreamItem table st item).yielded = st.yielded)
    ∧ stream_commands sendCommandTable
        (charItems "[SEND: outer [inner] still-outer]") =
      { insideCommand := 0
        commandStr := []
        dispatched := [("send".toList, some "outer [inner] still-outer".toList)]
        yielded := []
        raisedUnknown := none } := by
  constructor
  · intro table st item h
    unfold processStreamItem
    by_cases hr : st.raisedUnknown.isSome
    · simp [hr]
    · have h1 : (if item = ['['] then st.insideCommand + 1 else st.insideCommand) ≠ 0 := by
        split <;> omega
      simp only [hr, Bool.false_eq_true, if_false, h1, if_neg, yieldOf]
      repeat' split
      all_goals simp_all
  · decide

/-- C7 witness: the depth-positive buffering fact instantiated at a
concrete interpreter state of depth 1, together with the example
evaluation. -/
theorem c7_nested_brackets_witness :
    (processStreamItem sendCommandTable
        { insideCommand := 1, commandStr := "[SE".toList, dispatched := []
          yielded := ["x".toList], raisedUnknown := none }
        "N".toList).yielded = ["x".toList] :=
  c7_nested_brackets.1 sendCommandTable
    { insideCommand := 1, commandStr := "[SE".toList, dispatched := []
      yielded := ["x".toList], raisedUnknown := none }
    "N".toList (by decide)

/-- C8 counterexample: for the complete buffered command "[ SEND ]"
(no colon) the name is NOT trimmed: lookup uses " SEND " (lowercased to
" send "), misses the registered `send`, and the interpreter raises the
unknown-command error instead of dispatching — contrary to the claim
that whitespace is trimmed "including for commands with no colon".
Likewise a colon at position 0 of the inner text does not split:
parsing "[:x]" yields the untrimmed name ":x" with no data. -/
theorem c8_parse_counterexample :
    (stream_commands sendCommandTable (charItems "[ SEND ]")).dispatched = []
    ∧ (stream_commands sendCommandTable (charItems "[ SEND ]")).raisedUnknown
        = some " SEND ".toList
    ∧ stripChars " SEND ".toList = "SEND".toList
    ∧ " SEND ".toList ≠ "SEND".toList
    ∧ parseCommandStr "[:x]".toList = (":x".toList, none) := by
  refine ⟨by decide, by decide, by decide, by decide, by decide⟩

/-- C8 amended: the buffered text between the brackets is split at the
first colon only when that colon is not the first character of the
bracket-stripped text; in that case both the name and the trailing data
are whitespace-trimmed; when there is no colon, or the colon is the
first character, the entire bracket-stripped text — untrimmed — is the
name and there is no data; the name lookup is case-insensitive (the
lowercased name against the lowercase-keyed table), as the identical
dispatch of "[SeNd: hi]" and "[send: hi]" shows. -/
theorem c8_parse_amended :
    (∀ pre post : List Char, ':' ∉ pre → pre ≠ [] →
        parseCommandStr ('[' :: (pre ++ ':' :: post) ++ [']']) =
          (stripChars pre, some (stripChars post)))
    ∧ (∀ inner : List Char, ':' ∉ inner →
        parseCommandStr ('[' :: inner ++ [']']) = (inner, none))
    ∧ (∀ post : List Char,
        parseCommandStr ('[' :: (':' :: post) ++ [']']) = (':' :: post, none))
    ∧ stream_commands sendCommandTable (charItems "[SeNd: hi]") =
        { insideCommand := 0, commandStr := []
          dispatched := [("send".toList, some "hi".toList)]
          yielded := [], raisedUnknown := none }
    ∧ stream_commands sendCommandTable (charItems "[send: hi]") =
        { insideCommand := 0, commandStr := []
          dispatched := [("send".toList, some "hi".toList)]
          yielded := [], raisedUnknown := none } := by
  refine ⟨?_, ?_, ?_, ?_, ?_⟩
  · intro pre post hc hne
    have hmem : ':' ∈ ('[' :: (pre ++ ':' :: post) ++ [']']) := by simp
    have hlen : pre.length ≠ 0 := by
      simpa [List.length_eq_zero] using hne
    simp only [parseCommandStr]
    rw [if_pos hmem, inner_of_bracketed, firstIdx_append post hc]
    simp only [hlen, ne_eq, not_false_iff, if_true, if_pos]
    rw [List.take_left, drop_append_succ]
  · intro inner hc
    have hmem : ':' ∉ ('[' :: inner ++ [']']) := by
      simp only [List.cons_append, List.mem_cons, List.mem_append,
        List.mem_singleton]
      push_neg
      exact ⟨by decide, hc, by decide⟩
    simp only [parseCommandStr]
    rw [if_neg hmem, inner_of_bracketed]
  · intro post
    have hmem : ':' ∈ ('[' :: (':' :: post) ++ [']']) := by simp
    simp only [parseCommandStr]
    rw [if_pos hmem, inner_of_bracketed]
    simp [firstIdx]
  · decide
  · decide

/-- C8 witness: the trimming split applied to the concrete command text
"[SEND : hi ]". -/
theorem c8_parse_amended_witness :
    parseCommandStr ('[' :: ("SEND".toList ++ ':' :: " hi ".toList) ++ [']']) =
      (stripChars "SEND".toList, some (stripChars " hi ".toList)) :=
  c8_parse_amended.1 "SEND".toList " hi ".toList (by decide) (by decide)

/-- C9 counterexample: three field combinations the claim calls fatal
construction errors are accepted by `ChatMessage.__init__`: a user
message with empty-string content (`exists(content, True)` accepts
""), an assistant message carrying an audio attachment (audio is never
restricted to user messages), and a system message with an (empty)
metadata dict (`not exists(metadata)` passes for `{}`). -/
theorem c9_validation_counterexample :
    chatMessageValidate
        { role := .user, content := some "", metadata := none, images := []
          audio := [], toolCalls := none, toolCallId := none } = true
    ∧ chatMessageValidate
        { role := .assistant, content := some "hi", metadata := none, images := []
          audio := ["audiohash"], toolCalls := none, toolCallId := none } = true
    ∧ chatMessageValidate
        { role := .system, content := some "s", metadata := some [], images := []
          audio := [], toolCalls := none, toolCallId := none } = true := by
  refine ⟨by decide, by decide, by decide⟩

/-- C9 amended: construction succeeds exactly under these role-specific
constraints — system/user/tool require a present (possibly empty)
string content; metadata must be absent or empty except on user
messages; images must be empty except on user messages; audio is
unrestricted on every role; an assistant message with a non-empty
tool_calls list must have no content; user messages allow no non-empty
tool_calls and no non-empty tool_call_id; tool messages require a
non-empty tool_call_id.  Violating any of them is a fatal construction
error. -/
theorem c9_validation_amended (a : ChatMessageArgs) :
    chatMessageValidate a = true ↔
      (match a.role with
       | .system =>
           a.content.isSome = true
           ∧ (a.metadata = none ∨ a.metadata = some [])
           ∧ (a.toolCalls = none ∨ a.toolCalls = some [])
           ∧ (a.toolCallId = none ∨ a.toolCallId = some "")
           ∧ a.images = []
       | .assistant =>
           (a.metadata = none ∨ a.metadata = some [])
           ∧ (a.toolCallId = none ∨ a.toolCallId = some "")
           ∧ a.images = []
           ∧ (∀ l, a.toolCalls = some l → l ≠ [] → a.content = none)
       | .user =>
           a.content.isSome = true
           ∧ (a.toolCalls = none ∨ a.toolCalls = some [])
           ∧ (a.toolCallId = none ∨ a.toolCallId = some "")
       | .tool =>
           a.content.isSome = true
           ∧ (a.metadata = none ∨ a.metadata = some [])
           ∧ (∃ s, a.toolCallId = some s ∧ s ≠ "")
           ∧ a.images = []) := by
  obtain ⟨role, content, metadata, images, audio, toolCalls, toolCallId⟩ := a
  cases role
  case system =>
    simp only [chatMessageValidate, Bool.and_eq_true, Bool.not_eq_true',
      existsOptStrAllowEmpty_eq_true, existsOptList_eq_false, existsOptStr_eq_false,
      existsList_eq_false]
    tauto
  case assistant =>
    simp only [chatMessageValidate, Bool.and_eq_true, Bool.not_eq_true',
      existsOptList_eq_false, existsOptStr_eq_false, existsList_eq_false]
    constructor
    · rintro ⟨⟨⟨hm, hid⟩, him⟩, htc⟩
      refine ⟨hm, hid, him, ?_⟩
      intro l hl hlne
      subst hl
      rw [if_pos] at htc
      · cases content with
        | none => rfl
        | some s => simp [existsOptStrAllowEmpty] at htc
      · simp only [existsOptList, Bool.not_eq_true', ← ne_eq] at *
        simp [hlne]
    · rintro ⟨hm, hid, him, htc⟩
      refine ⟨⟨⟨hm, hid⟩, him⟩, ?_⟩
      by_cases h : existsOptList toolCalls = true
      · rw [if_pos h]
        rcases toolCalls with _ | l
        · simp [existsOptList] at h
        · have hne : l ≠ [] := by
            intro he
            subst he
            simp [existsOptList] at h
          have hc := htc l rfl hne
          subst hc
          simp [existsOptStrAllowEmpty]
      · rw [if_neg h]
  case user =>
    simp only [chatMessageValidate, Bool.and_eq_true, Bool.not_eq_true',
      existsOptStrAllowEmpty_eq_true, existsOptList_eq_false, existsOptStr_eq_false]
    tauto
  case tool =>
    simp only [chatMessageValidate, Bool.and_eq_true, Bool.not_eq_true',
      existsOptStrAllowEmpty_eq_true, existsOptList_eq_false, existsOptStr_eq_false,
      existsOptStr_eq_true, existsList_eq_false]
    tauto

/-- C9 witness: the characterization instantiated at a concrete
well-formed tool message. -/
theorem c9_validation_amended_witness :
    chatMessageValidate
        { role := .tool, content := some "result", metadata := none, images := []
          audio := [], toolCalls := none, toolCallId := some "call1" } = true :=
  (c9_validation_amended
    { role := .tool, content := some "result", metadata := none, images := []
      audio := [], toolCalls := none, toolCallId := some "call1" }).2
    (by exact ⟨rfl, Or.inl rfl, ⟨"call1", rfl, by decide⟩, rfl⟩)

/-- C10: a `stream_ask` call with `temporal=True`, consumed to
completion, leaves the client exactly as it was: the appended user
message and whatever the streamed completion added to the message list
are discarded by restoring the pre-call copy, and no other client field
is touched. -/
theorem c10_temporal_ask_frame (st : ClientState) (userMessage : ChatMessage)
    (completionEffect : List ChatMessage → List ChatMessage) :
    stream_ask true userMessage completionEffect st = st := rfl

/-- C10 witness: the frame property at a concrete client state. -/
theorem c10_temporal_ask_frame_witness :
    stream_ask true (assistantPreMessage 1) (fun l => l ++ l)
      { messages := [], model := "m", system_prompt := none, toolNames := [] } =
      { messages := [], model := "m", system_prompt := none, toolNames := [] } :=
  c10_temporal_ask_frame
    { messages := [], model := "m", system_prompt := none, toolNames := [] }
    (assistantPreMessage 1) (fun l => l ++ l)

end Pixi
